import Mathlib

/-
Shallow embedding of the gene-identity resolution and deduplication pipeline of
the `server_update` scripts (homolog table builder, gene-history resolver,
gene-info aggregator, marker-table builders), together with proofs of the
behavioural properties claimed for them.

Feeds are modelled as the decoded text they contain; Python string primitives
(`str.split`, `str.strip`, `str.replace`, `int(...)` success) are re-implemented
below by structural recursion on the character list of a `String`, so that all
definitions evaluate inside the kernel.  A Python `IndexError` caused by a
tuple-index access past the end of a split line is modelled as
`Except.error "IndexError"`: it aborts the whole build, exactly as an uncaught
exception does in the scripts.
-/

/-! ### Python string primitives, character-level -/

/-- `str.split(sep)` for a one-character separator: splits on every occurrence
and keeps empty components (`''.split(sep) == ['']`). -/
def chSplit (sep : Char) : List Char → List (List Char)
  | [] => [[]]
  | c :: cs =>
    match chSplit sep cs with
    | [] => [[c]]
    | g :: gs => if c = sep then [] :: g :: gs else (c :: g) :: gs

/-- Python `s.split(sep)` for a one-character separator. -/
def pySplit1 (s : String) (sep : Char) : List String :=
  (chSplit sep s.data).map String.mk

/-- Left-to-right, non-overlapping split on a two-character separator `ab`. -/
def chSplit2 (a b : Char) : List Char → List (List Char)
  | [] => [[]]
  | [c] => [[c]]
  | c :: d :: cs =>
    if c = a ∧ d = b then
      [] :: chSplit2 a b cs
    else
      match chSplit2 a b (d :: cs) with
      | [] => [[c]]
      | g :: gs => (c :: g) :: gs

/-- Python `s.split(ab)` for a two-character separator such as `', '`. -/
def pySplit2 (s : String) (a b : Char) : List String :=
  (chSplit2 a b s.data).map String.mk

/-- Python `s.strip()`: drop leading and trailing whitespace. -/
def pyStrip (s : String) : String :=
  String.mk (((s.data.dropWhile Char.isWhitespace).reverse.dropWhile
    Char.isWhitespace).reverse)

/-- Whether Python `int(s)` succeeds: optional surrounding whitespace, an
optional sign, then a non-empty digit string.  (Underscore digit grouping,
which never occurs in the feeds, is not modelled.) -/
def pyIntOk (s : String) : Bool :=
  let cs := ((s.data.dropWhile Char.isWhitespace).reverse.dropWhile
    Char.isWhitespace).reverse
  let ds := match cs with
            | '+' :: rest => rest
            | '-' :: rest => rest
            | rest => rest
  !ds.isEmpty && ds.all Char.isDigit

/-! ### HomologGenes (`server_update/homolog_genes.py`) -/

namespace HomologGenes

/-- The mapping built by `load_gene_history`:
key `(taxonomy id, discontinued gene id)`, value the raw current-id column
(the literal `"-"` marks a discontinued gene). -/
abbrev GeneHistory := List ((String × String) × String)

/-- Python dict assignment `gene_history[k] = v`: overwrite the value in place
when the key exists (last write wins), else append the pair. -/
def histAssign (m : GeneHistory) (k : String × String) (v : String) : GeneHistory :=
  match m with
  | [] => [(k, v)]
  | (k', v') :: rest =>
    if k' = k then (k, v) :: rest else (k', v') :: histAssign rest k v

/-- The line loop of `load_gene_history`.  Per line (after `strip`, split on
tab): `gene_history[(info[0], info[2])] = info[1]`.  A line with fewer than
three tab-separated fields raises `IndexError`. -/
def loadHistGo (acc : GeneHistory) : List String → Except String GeneHistory
  | [] => .ok acc
  | line :: rest =>
    let info := pySplit1 (pyStrip line) '\t'
    match info[1]?, info[2]? with
    | some cur, some disc =>
      loadHistGo (histAssign acc (info.headD "", disc) cur) rest
    | _, _ => .error "IndexError"

/-- `HomologGenes.load_gene_history`, modelled on the decoded feed lines after
the header line has been skipped. -/
def load_gene_history (lines : List String) : Except String GeneHistory :=
  loadHistGo [] lines

/-- The body of the `prepare_data` loop for one already-split homolog line.
Column layout: `group_id = 0`, `tax_id = 1`, `entrez_id = 2`.  The history
lookup `gene_history.get((columns[1], columns[2]), None)` is evaluated first
(so a short line raises `IndexError` before any filtering), then the
relevant-taxonomy filter, then the discontinued / superseded / unknown cases.
`some row` is an emitted record, `none` a dropped line. -/
def processColumns (gene_history : String → String → Option String)
    (common_tax_ids : List String) (columns : List String) :
    Except String (Option (List String)) :=
  match columns[1]?, columns[2]? with
  | some tax, some entrez =>
    let gene_id_status := gene_history tax entrez
    if tax ∉ common_tax_ids then .ok none
    else if gene_id_status = some "-" then .ok none
    else
      let gene_id := match gene_id_status with
                     | none => entrez
                     | some v => v
      .ok (some [columns.headD "", tax, gene_id])
  | _, _ => .error "IndexError"

/-- One homolog feed line: split on tab, then `processColumns`. -/
def processLine (gene_history : String → String → Option String)
    (common_tax_ids : List String) (line : String) :
    Except String (Option (List String)) :=
  processColumns gene_history common_tax_ids (pySplit1 line '\t')

/-- The full `prepare_data` loop over the feed lines, in input order. -/
def homologRows (gene_history : String → String → Option String)
    (common_tax_ids : List String) : List String → Except String (List (List String))
  | [] => .ok []
  | line :: rest =>
    match processLine gene_history common_tax_ids line with
    | .error e => .error e
    | .ok r =>
      match homologRows gene_history common_tax_ids rest with
      | .error e => .error e
      | .ok rs => .ok (match r with | none => rs | some row => row :: rs)

/-- `HomologGenes.prepare_data` on the decoded homolog feed `content`
(`handle_response` strips it, the loop splits it on newlines); the header row
is prepended to the emitted records.  The gene-history mapping and the
relevant-taxonomy set are the two collaborator inputs. -/
def prepare_data (gene_history : String → String → Option String)
    (common_tax_ids : List String) (content : String) :
    Except String (List (List String)) :=
  (homologRows gene_history common_tax_ids (pySplit1 (pyStrip content) '\n')).map
    (fun rs => ["group_id", "tax_id", "entrez_id"] :: rs)

end HomologGenes

/-! ### GeneInfo (`server_update/ncbi_gene_info.py`) -/

namespace GeneInfo

/-- A gene-info record: one feed line split on tab. -/
abbrev Record := List String

/-- The shared `gene_info` mapping: taxonomy id to its set of records,
modelled as an insertion-ordered duplicate-free association list. -/
abbrev GMap := List (String × List Record)

/-- Python `set.add` on a record set: no-op when the record is present. -/
def setAdd (rs : List Record) (r : Record) : List Record :=
  if r ∈ rs then rs else rs ++ [r]

/-- `gene_info[info[tax_id]].add(info)` on the defaultdict-of-set mapping. -/
def giAdd (m : GMap) (tax : String) (r : Record) : GMap :=
  match m with
  | [] => [(tax, [r])]
  | (t, rs) :: rest =>
    if t = tax then (t, setAdd rs r) :: rest else (t, rs) :: giAdd rest tax r

/-- The parsing loop of `handle_response` over the post-header feed lines:
split each line on tab and file it under its taxonomy id (column 0) when that
id is relevant; other lines are dropped without error. -/
def parseGeneInfo (relevant_taxonomy_ids : List String) (lines : List String) : GMap :=
  lines.foldl
    (fun m line =>
      let info := pySplit1 (pyStrip line) '\t'
      if info.headD "" ∈ relevant_taxonomy_ids then giAdd m (info.headD "") info
      else m)
    []

/-- `GeneInfo.handle_response`: the already-parsed guard
(`if len(gene_info) != 0: return`) followed by a fresh parse of the decoded
feed `lines` (header line included, skipped by the parse).  Returns the new
value of the shared `gene_info` mapping. -/
def handle_response (relevant_taxonomy_ids : List String) (gene_info : GMap)
    (lines : List String) : GMap :=
  if gene_info.length ≠ 0 then gene_info
  else parseGeneInfo relevant_taxonomy_ids (lines.drop 1)

/-- One row of the SQLite `gene_info` insert.  Every field holds the Python
value passed to the `INSERT`: `none` is SQL `NULL`. -/
structure GeneRow where
  species : Option String
  tax_id : Option String
  gene_id : Option String
  symbol : Option String
  synonyms : Option String
  db_refs : Option String
  description : Option String
  locus_tag : Option String
  chromosome : Option String
  map_location : Option String
  type_of_gene : Option String
  symbol_from_nomenclature_authority : Option String
  full_name_from_nomenclature_authority : Option String
  nomenclature_status : Option String
  other_designations : Option String
  modification_date : Option String
deriving DecidableEq

/-- The sentinel-dash conversion `x if x != '-' else None`. -/
def dashNull (s : String) : Option String := if s = "-" then none else some s

/-- The per-record value tuple of the `INSERT INTO gene_info` statement.
Column indexes follow the NCBI `gene_info` layout declared in the script:
tax 0, gene 1, symbol 2, locus tag 3, synonyms 4, db refs 5, chromosome 6,
map location 7, description 8, gene type 9, nomenclature symbol 10,
nomenclature full name 11, nomenclature status 12, other designations 13,
modification date 14.  The `json.dumps` wrapping of the parsed synonym list
and source map is abstracted by the two function parameters (the parsers live
outside this script).  `none` is a record too short for the accessed indexes
(Python `IndexError`). -/
def insertValues (species_name : String)
    (parse_synonyms parse_sources : String → String) (gene : Record) :
    Option GeneRow := do
  let tax ← gene[0]?
  let gid ← gene[1]?
  let sym ← gene[2]?
  let syn ← gene[4]?
  let refs ← gene[5]?
  let desc ← gene[8]?
  let locus ← gene[3]?
  let chrom ← gene[6]?
  let maploc ← gene[7]?
  let tog ← gene[9]?
  let symNom ← gene[10]?
  let fullNom ← gene[11]?
  let nomStat ← gene[12]?
  let other ← gene[13]?
  let modDate ← gene[14]?
  return { species := some species_name
           tax_id := some tax
           gene_id := some gid
           symbol := some sym
           synonyms := some (parse_synonyms syn)
           db_refs := some (parse_sources refs)
           description := dashNull desc
           locus_tag := dashNull locus
           chromosome := dashNull chrom
           map_location := dashNull maploc
           type_of_gene := dashNull tog
           symbol_from_nomenclature_authority := dashNull symNom
           full_name_from_nomenclature_authority := dashNull fullNom
           nomenclature_status := dashNull nomStat
           other_designations := dashNull other
           modification_date := some modDate }

end GeneInfo

/-! ### PanglaoDB (`server_update/marker_genes.py`, FormatA) -/

namespace PanglaoDB

/-- One entry appended to `genes_by_organism`: organism name, gene symbol,
cell type, reference, reference URL.  (The entrez id is attached afterwards
by the external `GeneMatcher`.) -/
structure MarkerEntry where
  organism : String
  name : String
  cell_type : String
  reference : String
  url : String
deriving DecidableEq

/-- The fixed code-to-name table `organism_mapper`. -/
def organism_mapper (org : String) : Option String :=
  if org = "Mm" then some "Mouse" else if org = "Hs" then some "Human" else none

/-- The inner loop over the space-separated organism codes of column 0:
each recognized code appends one entry (built from columns 1 and 2) to the
matching per-organism list; unrecognized codes are skipped.  A recognized code
on a line with fewer than 3 columns raises `IndexError`. -/
def orgLoop (columns : List String) (mouse human : List MarkerEntry) :
    List String → Except String (List MarkerEntry × List MarkerEntry)
  | [] => .ok (mouse, human)
  | org :: rest =>
    match organism_mapper org with
    | none => orgLoop columns mouse human rest
    | some orgName =>
      match columns[1]?, columns[2]? with
      | some sym, some cell =>
        let entry : MarkerEntry := ⟨orgName, sym, cell, "PanglaoDB", "https://panglaodb.se/"⟩
        if orgName = "Mouse" then orgLoop columns (mouse ++ [entry]) human rest
        else orgLoop columns mouse (human ++ [entry]) rest
      | _, _ => .error "IndexError"

/-- The line loop of `PanglaoDB.prepare_data`, threading the two
per-organism lists. -/
def lineLoop (mouse human : List MarkerEntry) :
    List String → Except String (List MarkerEntry × List MarkerEntry)
  | [] => .ok (mouse, human)
  | line :: rest =>
    let columns := pySplit1 line '\t'
    match orgLoop columns mouse human (pySplit1 (columns.headD "") ' ') with
    | .error e => .error e
    | .ok (m, h) => lineLoop m h rest

/-- `PanglaoDB.prepare_data`, restricted to the record-building core: the
emitted rows, mouse table first then human table, in append order (the
concatenation order of the final `Table.concatenate`). -/
def prepare_data (content : String) : Except String (List MarkerEntry) :=
  match lineLoop [] [] (pySplit1 (pyStrip content) '\n') with
  | .error e => .error e
  | .ok (m, h) => .ok (m ++ h)

/-- The rows together with the entrez id the external `GeneMatcher` assigns to
each gene symbol, abstracted as a symbol-to-id map. -/
def withEntrez (matcher : String → Option String) (content : String) :
    Except String (List (MarkerEntry × Option String)) :=
  (prepare_data content).map (List.map (fun e => (e, matcher e.name)))

end PanglaoDB

/-! ### CellMarkerDB (`server_update/marker_genes.py`, FormatB) -/

namespace CellMarkerDB

/-- One emitted CellMarker row: organism, gene symbol, cell type, reference,
reference URL, entrez id. -/
structure MarkerRow where
  organism : String
  name : String
  cell_type : String
  reference : String
  url : String
  entrez_id : String
deriving DecidableEq

/-- The deduplication key used by `unique_rows`:
`(columns[cell_name_col], entrez_id)`. -/
def key (r : MarkerRow) : String × String := (r.cell_type, r.entrez_id)

/-- `replace('[', '').replace(']', '')`: remove every bracket character. -/
def stripBrackets (s : String) : String :=
  String.mk (s.data.filter (fun c => !(c == '[' || c == ']')))

/-- The reference URL: the PubMed template with the id substituted when the
reference value parses as an integer, else the literal `?`. -/
def refURL (pubmed : String) : String :=
  if pyIntOk pubmed then "https://www.ncbi.nlm.nih.gov/pubmed/?term=" ++ pubmed
  else "?"

/-- The inner loop over `zip(symbols, entrez_ids)`.  Per pair: skip when the
id does not parse as an integer; skip when `(columns[5], entrez_id)` was seen;
else record the key as seen and append the row.  Columns 5 and 13 are read
only where the script reads them, so a short line raises `IndexError` exactly
when the script would. -/
def pairLoop (columns : List String) (organism : String)
    (seen : List (String × String)) (data : List MarkerRow) :
    List (String × String) → Except String (List (String × String) × List MarkerRow)
  | [] => .ok (seen, data)
  | (symbol, entrez) :: rest =>
    if pyIntOk entrez = false then pairLoop columns organism seen data rest
    else
      match columns[5]? with
      | none => .error "IndexError"
      | some cell =>
        if (cell, entrez) ∈ seen then pairLoop columns organism seen data rest
        else
          match columns[13]? with
          | none => .error "IndexError"
          | some pubmed =>
            pairLoop columns organism ((cell, entrez) :: seen)
              (data ++ [⟨organism, symbol, cell, pubmed, refURL pubmed, entrez⟩]) rest

/-- The line loop of `CellMarkerDB.prepare_data`, threading `unique_rows` and
`data`.  Lines whose organism column is neither `Human` nor `Mouse` are
skipped before any other column is read. -/
def lineLoop (seen : List (String × String)) (data : List MarkerRow) :
    List String → Except String (List (String × String) × List MarkerRow)
  | [] => .ok (seen, data)
  | line :: rest =>
    let columns := pySplit1 line '\t'
    let organism := columns.headD ""
    if organism ∈ ["Human", "Mouse"] then
      match columns[8]?, columns[9]? with
      | some symCol, some idCol =>
        let symbols := pySplit2 (stripBrackets symCol) ',' ' '
        let entrez_ids := pySplit2 (stripBrackets idCol) ',' ' '
        match pairLoop columns organism seen data (symbols.zip entrez_ids) with
        | .error e => .error e
        | .ok (s, d) => lineLoop s d rest
      | _, _ => .error "IndexError"
    else lineLoop seen data rest

/-- The emitted rows of the CellMarker build, from the feed's line list. -/
def buildRows (lines : List String) : Except String (List MarkerRow) :=
  match lineLoop [] [] lines with
  | .error e => .error e
  | .ok (_, d) => .ok d

/-- `CellMarkerDB.prepare_data`, restricted to the record-building core
(the downstream description enrichment is an external collaborator call). -/
def prepare_data (content : String) : Except String (List MarkerRow) :=
  buildRows (pySplit1 (pyStrip content) '\n')

/-- The rows the symbol/id pairs of one line would contribute were no
deduplication applied: the integer filter on the id, then the row layout of
the emitted `gene_entry`. -/
def pairCands (organism c5 c13 : String) (pairs : List (String × String)) :
    List MarkerRow :=
  (pairs.filter (fun p => pyIntOk p.2)).map
    (fun p => ⟨organism, p.1, c5, c13, refURL c13, p.2⟩)

/-- The rows one line would contribute were no deduplication applied: the
organism gate, the bracket-strip-and-split of columns 8 and 9, and the
integer filter on the id, in input order. -/
def lineCands (line : String) : List MarkerRow :=
  let columns := pySplit1 line '\t'
  let organism := columns.headD ""
  if organism ∈ ["Human", "Mouse"] then
    let symbols := pySplit2 (stripBrackets ((columns[8]?).getD "")) ',' ' '
    let entrez_ids := pySplit2 (stripBrackets ((columns[9]?).getD "")) ',' ' '
    pairCands organism ((columns[5]?).getD "") ((columns[13]?).getD "")
      (symbols.zip entrez_ids)
  else []

/-- All rows a feed would contribute were no deduplication applied, in input
order. -/
def candsOf (lines : List String) : List MarkerRow :=
  (lines.map lineCands).flatten

/-- First-occurrence-wins deduplication of a row stream by `key`, threading
the seen-key set; the reference shape of the `unique_rows` logic. -/
def dedupRun (seen : List (String × String)) :
    List MarkerRow → List (String × String) × List MarkerRow
  | [] => (seen, [])
  | r :: rs =>
    if key r ∈ seen then dedupRun seen rs
    else
      let p := dedupRun (key r :: seen) rs
      (p.1, r :: p.2)

/-- A feed line the script can process without an `IndexError`: whenever its
organism column passes the gate, it has at least the 14 columns the loop
reads. -/
def lineOk (line : String) : Prop :=
  (pySplit1 line '\t').headD "" ∈ ["Human", "Mouse"] →
    14 ≤ (pySplit1 line '\t').length

instance (line : String) : Decidable (lineOk line) := by
  unfold lineOk; infer_instance

end CellMarkerDB

/-! ### Sample inputs used by the witnesses -/

/-- A sample gene-info record (15 tab fields, NCBI column layout) whose locus
tag and other-designations columns carry the sentinel dash. -/
def geneSample : GeneInfo.Record :=
  ["9606", "1", "BRCA1", "-", "syn1|syn2", "MIM:113705", "17", "17q21.31",
   "breast cancer desc", "protein-coding", "BRCA1", "breast cancer 1", "O",
   "-", "20200101"]

/-- The row the insert builds from `geneSample`. -/
def geneSampleRow : GeneInfo.GeneRow :=
  { species := some "Homo sapiens"
    tax_id := some "9606"
    gene_id := some "1"
    symbol := some "BRCA1"
    synonyms := some "syn1|syn2"
    db_refs := some "MIM:113705"
    description := some "breast cancer desc"
    locus_tag := none
    chromosome := some "17"
    map_location := some "17q21.31"
    type_of_gene := some "protein-coding"
    symbol_from_nomenclature_authority := some "BRCA1"
    full_name_from_nomenclature_authority := some "breast cancer 1"
    nomenclature_status := some "O"
    other_designations := none
    modification_date := some "20200101" }

/-- Two CellMarker feed lines that share the `(cell type, entrez id)` key
`("CellA", "77")` through different gene symbols. -/
def cmLinePair : List String :=
  ["Human\tc1\tc2\tc3\tc4\tCellA\tc6\tc7\tG1\t77\tc10\tc11\tc12\t999",
   "Human\tc1\tc2\tc3\tc4\tCellA\tc6\tc7\tG2\t77\tc10\tc11\tc12\t999"]

/-- The single row the CellMarker build emits from `cmLinePair`. -/
def cmRowG1 : CellMarkerDB.MarkerRow :=
  ⟨"Human", "G1", "CellA", "999",
    "https://www.ncbi.nlm.nih.gov/pubmed/?term=999", "77"⟩

/-- One CellMarker feed line whose bracketed symbol and id columns repeat the
same entrez id, so its second pair duplicates the key of its first. -/
def cmLineRepeat : String :=
  "Human\tc1\tc2\tc3\tc4\tCellB\tc6\tc7\t[G1, G2]\t[55, 55]\tc10\tc11\tc12\tnote"

/-! ### Theorems -/

/-- **C1.** For every homolog line whose taxonomy id is in the relevant set,
`prepare_data` consults the gene-history mapping at
`(taxonomy id, entrez id)`: a `"-"` value (discontinued) drops the line, any
other present value replaces the entrez id, and an absent key leaves the
entrez id unchanged. -/
theorem homolog_history_resolution
    (gene_history : String → String → Option String) (common_tax_ids : List String)
    (g t a : String) (rest : List String) (ht : t ∈ common_tax_ids) :
    HomologGenes.processColumns gene_history common_tax_ids (g :: t :: a :: rest) =
      .ok (match gene_history t a with
           | some v => if v = "-" then none else some [g, t, v]
           | none => some [g, t, a]) := by
  unfold HomologGenes.processColumns
  cases hg : gene_history t a with
  | none => simp [ht, hg]
  | some v => by_cases hv : v = "-" <;> simp [ht, hg, hv]

/-- Witness for C1: the spec's `Current` example, line `['5','9606','123']`
with history `(9606,123) -> '456'`, yields the record `['5','9606','456']`. -/
theorem homolog_history_resolution_witness :
    HomologGenes.processColumns
      (fun t a => if (t, a) = ("9606", "123") then some "456" else none)
      ["9606"] ["5", "9606", "123"] = .ok (some ["5", "9606", "456"]) := by
  have h := homolog_history_resolution
    (fun t a => if (t, a) = ("9606", "123") then some "456" else none)
    ["9606"] "5" "9606" "123" [] (by decide)
  simpa using h

/-- **C10.** Gene-history resolution is single-step: a line whose
`(taxonomy id, entrez id)` resolves to a non-dash replacement `b` is emitted
with gene id `b`, whatever the history says about `(taxonomy id, b)` — the
replacement is never itself resolved or checked for discontinuation. -/
theorem homolog_resolution_single_step
    (gene_history : String → String → Option String) (common_tax_ids : List String)
    (g t a b : String) (rest : List String) (ht : t ∈ common_tax_ids)
    (hab : gene_history t a = some b) (hb : b ≠ "-") :
    HomologGenes.processColumns gene_history common_tax_ids (g :: t :: a :: rest) =
      .ok (some [g, t, b]) := by
  unfold HomologGenes.processColumns
  simp [ht, hab, hb]

/-- Witness for C10: history maps `(9606,123) -> '456'` and also marks
`(9606,456)` discontinued, yet the line with gene `123` is still emitted with
gene id `456`. -/
theorem homolog_resolution_single_step_witness :
    HomologGenes.processColumns
      (fun t a => if (t, a) = ("9606", "123") then some "456"
                  else if (t, a) = ("9606", "456") then some "-" else none)
      ["9606"] ["5", "9606", "123"] = .ok (some ["5", "9606", "456"]) :=
  homolog_resolution_single_step
    (fun t a => if (t, a) = ("9606", "123") then some "456"
                else if (t, a) = ("9606", "456") then some "-" else none)
    ["9606"] "5" "9606" "123" "456" [] (by decide) (by decide) (by decide)

/-- **C5.** The gene-info partition step is idempotent: running
`handle_response` a second time with the same feed leaves the mapping exactly
as after the first run, enforced by the already-parsed guard. -/
theorem gene_info_partition_idempotent (relevant : List String)
    (gene_info : GeneInfo.GMap) (lines : List String) :
    GeneInfo.handle_response relevant
        (GeneInfo.handle_response relevant gene_info lines) lines =
      GeneInfo.handle_response relevant gene_info lines := by
  unfold GeneInfo.handle_response
  by_cases h : gene_info.length ≠ 0 <;> simp [h]

/-- **C9.** Once the shared mapping is non-empty, `handle_response` returns it
unchanged for every feed content, including content different from the one
that built it. -/
theorem gene_info_nonempty_guard (relevant : List String)
    (gene_info : GeneInfo.GMap) (lines : List String) (h : gene_info ≠ []) :
    GeneInfo.handle_response relevant gene_info lines = gene_info := by
  have hl : gene_info.length ≠ 0 := by simpa using h
  unfold GeneInfo.handle_response
  simp [hl]

/-- Witness for C9: a mapping holding one human record survives a later call
on a completely different feed. -/
theorem gene_info_nonempty_guard_witness :
    GeneInfo.handle_response ["9606"] [("9606", [["9606", "1", "A"]])]
        ["header", "10090\t2\tB"] = [("9606", [["9606", "1", "A"]])] :=
  gene_info_nonempty_guard ["9606"] [("9606", [["9606", "1", "A"]])]
    ["header", "10090\t2\tB"] (by simp)

/-- Counterexample for C8: on a record whose every raw field is the sentinel
dash, the stored modification date and symbol are the dash itself, not NULL
(the description, by contrast, is NULL) — so the dash-to-null treatment does
not cover all fields. -/
theorem gene_info_dash_not_null_cx :
    (GeneInfo.insertValues "Homo sapiens" (fun s => s) (fun s => s)
        (List.replicate 15 "-")).map GeneInfo.GeneRow.modification_date =
      some (some "-") ∧
    (GeneInfo.insertValues "Homo sapiens" (fun s => s) (fun s => s)
        (List.replicate 15 "-")).map GeneInfo.GeneRow.symbol = some (some "-") ∧
    (GeneInfo.insertValues "Homo sapiens" (fun s => s) (fun s => s)
        (List.replicate 15 "-")).map GeneInfo.GeneRow.description = some none :=
  ⟨rfl, rfl, rfl⟩

/-- **C8 (amended).** The dash-to-null conversion applies exactly to the nine
descriptive fields (description, locus tag, chromosome, map location, gene
type, the two nomenclature-authority fields, nomenclature status, other
designations); taxonomy id, gene id, symbol and modification date are stored
verbatim, dash included. -/
theorem gene_info_dash_null_fields (species_name : String)
    (parse_synonyms parse_sources : String → String) (gene : GeneInfo.Record)
    (r : GeneInfo.GeneRow)
    (h : GeneInfo.insertValues species_name parse_synonyms parse_sources gene =
      some r) :
    r.description = (gene[8]?).bind GeneInfo.dashNull ∧
    r.locus_tag = (gene[3]?).bind GeneInfo.dashNull ∧
    r.chromosome = (gene[6]?).bind GeneInfo.dashNull ∧
    r.map_location = (gene[7]?).bind GeneInfo.dashNull ∧
    r.type_of_gene = (gene[9]?).bind GeneInfo.dashNull ∧
    r.symbol_from_nomenclature_authority = (gene[10]?).bind GeneInfo.dashNull ∧
    r.full_name_from_nomenclature_authority = (gene[11]?).bind GeneInfo.dashNull ∧
    r.nomenclature_status = (gene[12]?).bind GeneInfo.dashNull ∧
    r.other_designations = (gene[13]?).bind GeneInfo.dashNull ∧
    r.tax_id = gene[0]? ∧
    r.gene_id = gene[1]? ∧
    r.symbol = gene[2]? ∧
    r.modification_date = gene[14]? := by
  unfold GeneInfo.insertValues at h
  rw [Option.bind_eq_bind, Option.bind_eq_some] at h
  obtain ⟨tax, h0, h⟩ := h
  rw [Option.bind_eq_some] at h
  obtain ⟨gid, h1, h⟩ := h
  rw [Option.bind_eq_some] at h
  obtain ⟨sym, h2, h⟩ := h
  rw [Option.bind_eq_some] at h
  obtain ⟨syn, h4, h⟩ := h
  rw [Option.bind_eq_some] at h
  obtain ⟨refs, h5, h⟩ := h
  rw [Option.bind_eq_some] at h
  obtain ⟨desc, h8, h⟩ := h
  rw [Option.bind_eq_some] at h
  obtain ⟨locus, h3, h⟩ := h
  rw [Option.bind_eq_some] at h
  obtain ⟨chrom, h6, h⟩ := h
  rw [Option.bind_eq_some] at h
  obtain ⟨maploc, h7, h⟩ := h
  rw [Option.bind_eq_some] at h
  obtain ⟨tog, h9, h⟩ := h
  rw [Option.bind_eq_some] at h
  obtain ⟨symN, h10, h⟩ := h
  rw [Option.bind_eq_some] at h
  obtain ⟨fulN, h11, h⟩ := h
  rw [Option.bind_eq_some] at h
  obtain ⟨nomS, h12, h⟩ := h
  rw [Option.bind_eq_some] at h
  obtain ⟨oth, h13, h⟩ := h
  rw [Option.bind_eq_some] at h
  obtain ⟨modD, h14, h⟩ := h
  simp only [Option.pure_def, Option.some.injEq] at h
  subst h
  simp [h0, h1, h2, h3, h4, h5, h6, h7, h8, h9, h10, h11, h12, h13, h14]

/-- Witness for C8 (amended): `geneSample` (dash in the locus-tag and
other-designations columns only) is stored as `geneSampleRow`. -/
theorem gene_info_dash_null_fields_witness :
    geneSampleRow.description = (geneSample[8]?).bind GeneInfo.dashNull ∧
    geneSampleRow.locus_tag = (geneSample[3]?).bind GeneInfo.dashNull ∧
    geneSampleRow.chromosome = (geneSample[6]?).bind GeneInfo.dashNull ∧
    geneSampleRow.map_location = (geneSample[7]?).bind GeneInfo.dashNull ∧
    geneSampleRow.type_of_gene = (geneSample[9]?).bind GeneInfo.dashNull ∧
    geneSampleRow.symbol_from_nomenclature_authority =
      (geneSample[10]?).bind GeneInfo.dashNull ∧
    geneSampleRow.full_name_from_nomenclature_authority =
      (geneSample[11]?).bind GeneInfo.dashNull ∧
    geneSampleRow.nomenclature_status = (geneSample[12]?).bind GeneInfo.dashNull ∧
    geneSampleRow.other_designations = (geneSample[13]?).bind GeneInfo.dashNull ∧
    geneSampleRow.tax_id = geneSample[0]? ∧
    geneSampleRow.gene_id = geneSample[1]? ∧
    geneSampleRow.symbol = geneSample[2]? ∧
    geneSampleRow.modification_date = geneSample[14]? :=
  gene_info_dash_null_fields "Homo sapiens" (fun s => s) (fun s => s)
    geneSample geneSampleRow (by rfl)

/-- A homolog line with fewer than 3 tab fields makes `processColumns` raise
`IndexError` (the history lookup reads columns 1 and 2 unconditionally). -/
theorem processColumns_short (gene_history : String → String → Option String)
    (common_tax_ids : List String) (cols : List String) (h : cols.length < 3) :
    HomologGenes.processColumns gene_history common_tax_ids cols =
      .error "IndexError" := by
  have h2 : cols[2]? = none := List.getElem?_eq_none (by omega)
  cases h1 : cols[1]? with
  | none => unfold HomologGenes.processColumns; rw [h1, h2]
  | some v => unfold HomologGenes.processColumns; rw [h1, h2]

/-- `processColumns` either succeeds or raises exactly `IndexError`. -/
theorem processColumns_ok_or (gene_history : String → String → Option String)
    (common_tax_ids : List String) (cols : List String) :
    (∃ r, HomologGenes.processColumns gene_history common_tax_ids cols = .ok r) ∨
    HomologGenes.processColumns gene_history common_tax_ids cols =
      .error "IndexError" := by
  unfold HomologGenes.processColumns
  cases cols[1]? <;> cases cols[2]?
  · right; rfl
  · right; rfl
  · right; rfl
  · left; dsimp only; split_ifs <;> exact ⟨_, rfl⟩

/-- Any malformed line anywhere in the feed makes the whole homolog loop
return `IndexError`. -/
theorem homologRows_short_error (gene_history : String → String → Option String)
    (common_tax_ids : List String) :
    ∀ lines : List String,
      (∃ line ∈ lines, (pySplit1 line '\t').length < 3) →
      HomologGenes.homologRows gene_history common_tax_ids lines =
        .error "IndexError" := by
  intro lines
  induction lines with
  | nil => rintro ⟨l, hl, _⟩; simp at hl
  | cons line rest ih =>
    rintro ⟨l, hl, hshort⟩
    rcases List.mem_cons.mp hl with rfl | hrest
    · simp only [HomologGenes.homologRows, HomologGenes.processLine]
      rw [processColumns_short _ _ _ hshort]
    · simp only [HomologGenes.homologRows, HomologGenes.processLine]
      rcases processColumns_ok_or gene_history common_tax_ids
          (pySplit1 line '\t') with ⟨r, hok⟩ | herr
      · rw [hok, ih ⟨l, hrest, hshort⟩]
      · rw [herr]

/-- **C3 (amended).** A homolog line with fewer than 3 tab-separated fields
raises an uncaught `IndexError` that aborts the whole build: no
`MalformedHomologLine` mechanism exists, the line is not skipped, and none of
the remaining well-formed lines is emitted. -/
theorem homolog_malformed_line_aborts
    (gene_history : String → String → Option String)
    (common_tax_ids : List String) (content : String)
    (h : ∃ line ∈ pySplit1 (pyStrip content) '\n',
      (pySplit1 line '\t').length < 3) :
    HomologGenes.prepare_data gene_history common_tax_ids content =
      .error "IndexError" := by
  unfold HomologGenes.prepare_data
  rw [homologRows_short_error gene_history common_tax_ids _ h]
  rfl

/-- Witness for C3 (amended): the empty feed is one empty line, which has a
single tab field, so the build aborts. -/
theorem homolog_malformed_line_aborts_witness :
    HomologGenes.prepare_data (fun _ _ => none) ["9606"] "" =
      .error "IndexError" :=
  homolog_malformed_line_aborts (fun _ _ => none) ["9606"] ""
    ⟨"", by decide, by decide⟩

/-- Counterexample for C3: a feed holding the malformed line `"5\t9606"`
followed by the well-formed line `"6\t9606\t123"` aborts with `IndexError`
instead of skipping the bad line — although the well-formed line alone
would have produced its record. -/
theorem homolog_malformed_skip_cx :
    HomologGenes.prepare_data (fun _ _ => none) ["9606"]
        "5\t9606\n6\t9606\t123" = .error "IndexError" ∧
    HomologGenes.prepare_data (fun _ _ => none) ["9606"] "6\t9606\t123" =
      .ok [["group_id", "tax_id", "entrez_id"], ["6", "9606", "123"]] :=
  ⟨rfl, rfl⟩

/-- Any malformed line anywhere in the history feed makes `loadHistGo` return
`IndexError`. -/
theorem loadHistGo_short_error :
    ∀ (lines : List String) (acc : HomologGenes.GeneHistory),
      (∃ line ∈ lines, (pySplit1 (pyStrip line) '\t').length < 3) →
      HomologGenes.loadHistGo acc lines = .error "IndexError" := by
  intro lines
  induction lines with
  | nil => rintro acc ⟨l, hl, _⟩; simp at hl
  | cons line rest ih =>
    rintro acc ⟨l, hl, hshort⟩
    rcases List.mem_cons.mp hl with rfl | hrest
    · have h2 : (pySplit1 (pyStrip l) '\t')[2]? = none :=
        List.getElem?_eq_none (by omega)
      simp only [HomologGenes.loadHistGo, h2]
      cases (pySplit1 (pyStrip l) '\t')[1]? <;> rfl
    · simp only [HomologGenes.loadHistGo]
      cases (pySplit1 (pyStrip line) '\t')[1]? with
      | none => rfl
      | some cur =>
        cases (pySplit1 (pyStrip line) '\t')[2]? with
        | none => rfl
        | some disc => exact ih _ ⟨l, hrest, hshort⟩

/-- **C4 (amended).** A history line with fewer than 3 tab-separated fields
raises an uncaught `IndexError` that aborts all of `load_gene_history`: no
`MalformedHistoryLine` mechanism exists, there is no warn-and-skip, and the
remaining lines are not processed. -/
theorem history_malformed_line_aborts (lines : List String)
    (h : ∃ line ∈ lines, (pySplit1 (pyStrip line) '\t').length < 3) :
    HomologGenes.load_gene_history lines = .error "IndexError" :=
  loadHistGo_short_error lines [] h

/-- Witness for C4 (amended): a feed of one two-field line aborts. -/
theorem history_malformed_line_aborts_witness :
    HomologGenes.load_gene_history ["9606\t456"] = .error "IndexError" :=
  history_malformed_line_aborts ["9606\t456"] ⟨"9606\t456", by decide, by decide⟩

/-- Counterexample for C4: with the malformed line `"9606\t456"` first, the
well-formed line `"10090\t111\t222"` after it is never processed and the
whole history load errors — although that line alone builds an entry. -/
theorem history_malformed_skip_cx :
    HomologGenes.load_gene_history ["9606\t456", "10090\t111\t222"] =
      .error "IndexError" ∧
    HomologGenes.load_gene_history ["10090\t111\t222"] =
      .ok [(("10090", "222"), "111")] :=
  ⟨rfl, rfl⟩

/-- Whenever `processColumns` emits a record, the record is a
`[group, tax, gene]` triple whose taxonomy id passed the relevant-set
filter. -/
theorem processColumns_ok_some (gene_history : String → String → Option String)
    (common_tax_ids : List String) (cols : List String) (row : List String)
    (h : HomologGenes.processColumns gene_history common_tax_ids cols =
      .ok (some row)) :
    ∃ g t gid, row = [g, t, gid] ∧ t ∈ common_tax_ids := by
  unfold HomologGenes.processColumns at h
  cases h1 : cols[1]? with
  | none => rw [h1] at h; simp at h
  | some tax =>
    cases h2 : cols[2]? with
    | none => rw [h1, h2] at h; simp at h
    | some entrez =>
      rw [h1, h2] at h
      dsimp only at h
      by_cases hmem : tax ∈ common_tax_ids
      · rw [if_neg (not_not_intro hmem)] at h
        by_cases hdisc : gene_history tax entrez = some "-"
        · rw [if_pos hdisc] at h; simp at h
        · rw [if_neg hdisc] at h
          simp only [Except.ok.injEq, Option.some.injEq] at h
          exact ⟨cols.headD "", tax, _, h.symm, hmem⟩
      · rw [if_pos hmem] at h; simp at h

/-- Every record the homolog loop emits has a relevant taxonomy id. -/
theorem homologRows_ok_mem (gene_history : String → String → Option String)
    (common_tax_ids : List String) :
    ∀ (lines : List String) (rs : List (List String)),
      HomologGenes.homologRows gene_history common_tax_ids lines = .ok rs →
      ∀ row ∈ rs, ∃ g t gid, row = [g, t, gid] ∧ t ∈ common_tax_ids := by
  intro lines
  induction lines with
  | nil =>
    intro rs h row hrow
    simp only [HomologGenes.homologRows, Except.ok.injEq] at h
    subst h; simp at hrow
  | cons line rest ih =>
    intro rs h row hrow
    simp only [HomologGenes.homologRows] at h
    cases hp : HomologGenes.processLine gene_history common_tax_ids line with
    | error e => rw [hp] at h; simp at h
    | ok r =>
      rw [hp] at h
      cases hr : HomologGenes.homologRows gene_history common_tax_ids rest with
      | error e => rw [hr] at h; simp at h
      | ok rs' =>
        rw [hr] at h
        cases r with
        | none =>
          simp only [Except.ok.injEq] at h
          subst h
          exact ih rs' hr row hrow
        | some row0 =>
          simp only [Except.ok.injEq] at h
          subst h
          rcases List.mem_cons.mp hrow with rfl | hmem
          · exact processColumns_ok_some gene_history common_tax_ids
              (pySplit1 line '\t') row hp
          · exact ih rs' hr row hmem

/-- **C6.** Every data record of the homolog builder's output (header row
excluded) is a `[group, tax, gene]` triple whose taxonomy id belongs to the
relevant set passed in. -/
theorem homolog_output_tax_membership
    (gene_history : String → String → Option String)
    (common_tax_ids : List String) (content : String) (out : List (List String))
    (h : HomologGenes.prepare_data gene_history common_tax_ids content = .ok out) :
    ∀ row ∈ out.drop 1, ∃ g t gid, row = [g, t, gid] ∧ t ∈ common_tax_ids := by
  unfold HomologGenes.prepare_data at h
  cases hr : HomologGenes.homologRows gene_history common_tax_ids
      (pySplit1 (pyStrip content) '\n') with
  | error e => rw [hr] at h; simp [Except.map] at h
  | ok rs =>
    rw [hr] at h
    simp only [Except.map, Except.ok.injEq] at h
    subst h
    intro row hrow
    exact homologRows_ok_mem gene_history common_tax_ids _ rs hr row (by simpa using hrow)

/-- Witness for C6: on a feed whose second line carries the irrelevant
taxonomy id `10090`, the single emitted data record has taxonomy id `9606`,
a member of the relevant set. -/
theorem homolog_output_tax_membership_witness :
    ∃ g t gid, ["6", "9606", "123"] = [g, t, gid] ∧ t ∈ ["9606"] :=
  homolog_output_tax_membership (fun _ _ => none) ["9606"]
    "6\t9606\t123\n7\t10090\t5"
    [["group_id", "tax_id", "entrez_id"], ["6", "9606", "123"]] (by rfl)
    ["6", "9606", "123"] (by simp)

/-- Counterexample for C2: the FormatA (PanglaoDB) build applies no
deduplication — a feed repeating the line `"Hs\tG1\tCellA"` yields two
records that share the `(cell type, entrez id)` key `("CellA", "111")` under
any matcher assignment for `G1`. -/
theorem marker_formatA_duplicate_cx :
    (PanglaoDB.withEntrez (fun _ => some "111") "Hs\tG1\tCellA\nHs\tG1\tCellA").map
        (fun rs =>
          rs.countP (fun r => decide (r.1.cell_type = "CellA" ∧ r.2 = some "111"))) =
      .ok 2 := by
  rfl

/-- `dedupRun` distributes over list append, threading the seen-key set. -/
theorem dedupRun_append (cs ds : List CellMarkerDB.MarkerRow) :
    ∀ seen, CellMarkerDB.dedupRun seen (cs ++ ds) =
      ((CellMarkerDB.dedupRun (CellMarkerDB.dedupRun seen cs).1 ds).1,
       (CellMarkerDB.dedupRun seen cs).2 ++
         (CellMarkerDB.dedupRun (CellMarkerDB.dedupRun seen cs).1 ds).2) := by
  induction cs with
  | nil => intro seen; simp [CellMarkerDB.dedupRun]
  | cons r rs ih =>
    intro seen
    by_cases hk : CellMarkerDB.key r ∈ seen
    · simp [CellMarkerDB.dedupRun, hk, ih]
    · simp [CellMarkerDB.dedupRun, hk, ih]

/-- On a line with its cell-name and reference columns present, the pair loop
is first-occurrence-wins deduplication of that line's candidate rows. -/
theorem pairLoop_eq (columns : List String) (organism c5 c13 : String)
    (h5 : columns[5]? = some c5) (h13 : columns[13]? = some c13) :
    ∀ (pairs : List (String × String)) (seen : List (String × String))
      (data : List CellMarkerDB.MarkerRow),
      CellMarkerDB.pairLoop columns organism seen data pairs =
        .ok ((CellMarkerDB.dedupRun seen
                (CellMarkerDB.pairCands organism c5 c13 pairs)).1,
             data ++ (CellMarkerDB.dedupRun seen
                (CellMarkerDB.pairCands organism c5 c13 pairs)).2) := by
  intro pairs
  induction pairs with
  | nil =>
    intro seen data
    simp [CellMarkerDB.pairLoop, CellMarkerDB.pairCands, CellMarkerDB.dedupRun]
  | cons p rest ih =>
    obtain ⟨symbol, entrez⟩ := p
    intro seen data
    cases hint : pyIntOk entrez with
    | false =>
      simp [CellMarkerDB.pairLoop, hint, CellMarkerDB.pairCands,
        CellMarkerDB.dedupRun, ih]
    | true =>
      by_cases hseen : (c5, entrez) ∈ seen
      · simp only [CellMarkerDB.pairLoop, hint, h5]
        simp only [Bool.true_eq_false, if_false, if_pos hseen]
        rw [ih]
        simp [CellMarkerDB.pairCands, CellMarkerDB.dedupRun, CellMarkerDB.key,
          hint, hseen]
      · simp only [CellMarkerDB.pairLoop, hint, h5, h13]
        simp only [Bool.true_eq_false, if_false, if_neg hseen]
        rw [ih]
        simp [CellMarkerDB.pairCands, CellMarkerDB.dedupRun, CellMarkerDB.key,
          hint, hseen]

/-- Processing one well-formed line folds its deduplicated candidate rows
into the running state. -/
theorem lineStep (line : String) (rest : List String)
    (hok : CellMarkerDB.lineOk line) :
    ∀ (seen : List (String × String)) (data : List CellMarkerDB.MarkerRow),
      CellMarkerDB.lineLoop seen data (line :: rest) =
        CellMarkerDB.lineLoop
          (CellMarkerDB.dedupRun seen (CellMarkerDB.lineCands line)).1
          (data ++ (CellMarkerDB.dedupRun seen (CellMarkerDB.lineCands line)).2)
          rest := by
  intro seen data
  by_cases horg : (pySplit1 line '\t').headD "" ∈ ["Human", "Mouse"]
  · have hlen : 14 ≤ (pySplit1 line '\t').length := hok horg
    obtain ⟨c5, h5⟩ : ∃ c, (pySplit1 line '\t')[5]? = some c :=
      ⟨_, List.getElem?_eq_getElem (by omega)⟩
    obtain ⟨c8, h8⟩ : ∃ c, (pySplit1 line '\t')[8]? = some c :=
      ⟨_, List.getElem?_eq_getElem (by omega)⟩
    obtain ⟨c9, h9⟩ : ∃ c, (pySplit1 line '\t')[9]? = some c :=
      ⟨_, List.getElem?_eq_getElem (by omega)⟩
    obtain ⟨c13, h13⟩ : ∃ c, (pySplit1 line '\t')[13]? = some c :=
      ⟨_, List.getElem?_eq_getElem (by omega)⟩
    have hc : CellMarkerDB.lineCands line =
        CellMarkerDB.pairCands ((pySplit1 line '\t').headD "") c5 c13
          ((pySplit2 (CellMarkerDB.stripBrackets c8) ',' ' ').zip
            (pySplit2 (CellMarkerDB.stripBrackets c9) ',' ' ')) := by
      simp only [CellMarkerDB.lineCands]
      rw [if_pos horg, h5, h8, h9, h13]
      rfl
    simp only [CellMarkerDB.lineLoop]
    rw [if_pos horg, h8, h9]
    dsimp only
    rw [pairLoop_eq _ _ _ _ h5 h13]
    dsimp only
    rw [hc]
  · have hc : CellMarkerDB.lineCands line = [] := by
      simp only [CellMarkerDB.lineCands]
      rw [if_neg horg]
    simp only [CellMarkerDB.lineLoop]
    rw [if_neg horg, hc]
    simp [CellMarkerDB.dedupRun]

/-- On a feed of well-formed lines, the CellMarker line loop is
first-occurrence-wins deduplication of the feed's candidate rows. -/
theorem lineLoop_eq :
    ∀ (lines : List String), (∀ l ∈ lines, CellMarkerDB.lineOk l) →
      ∀ (seen : List (String × String)) (data : List CellMarkerDB.MarkerRow),
      CellMarkerDB.lineLoop seen data lines =
        .ok ((CellMarkerDB.dedupRun seen (CellMarkerDB.candsOf lines)).1,
             data ++ (CellMarkerDB.dedupRun seen (CellMarkerDB.candsOf lines)).2) := by
  intro lines
  induction lines with
  | nil =>
    intro _ seen data
    simp [CellMarkerDB.lineLoop, CellMarkerDB.candsOf, CellMarkerDB.dedupRun]
  | cons line rest ih =>
    intro hwf seen data
    rw [lineStep line rest (hwf line (List.mem_cons_self line rest))]
    rw [ih (fun l hl => hwf l (List.mem_cons_of_mem line hl))]
    have hsplit : CellMarkerDB.candsOf (line :: rest) =
        CellMarkerDB.lineCands line ++ CellMarkerDB.candsOf rest := by
      simp [CellMarkerDB.candsOf]
    rw [hsplit, dedupRun_append]
    simp [List.append_assoc]

/-- The rows `dedupRun` keeps for a key are the first candidate carrying that
key — provided the key was not already seen. -/
theorem dedupRun_filter (k : String × String) :
    ∀ (cs : List CellMarkerDB.MarkerRow) (seen : List (String × String)),
      (CellMarkerDB.dedupRun seen cs).2.filter
          (fun r => decide (CellMarkerDB.key r = k)) =
        if k ∈ seen then []
        else (cs.filter (fun r => decide (CellMarkerDB.key r = k))).take 1 := by
  intro cs
  induction cs with
  | nil => intro seen; simp [CellMarkerDB.dedupRun]
  | cons r rs ih =>
    intro seen
    have hca : ∀ h : ¬ CellMarkerDB.key r = k,
        (r :: rs).filter (fun r => decide (CellMarkerDB.key r = k)) =
          rs.filter (fun r => decide (CellMarkerDB.key r = k)) := by
      intro h; simp [List.filter_cons, h]
    by_cases hk : CellMarkerDB.key r ∈ seen
    · simp only [CellMarkerDB.dedupRun, if_pos hk]
      rw [ih seen]
      by_cases hkr : CellMarkerDB.key r = k
      · subst hkr
        simp [hk]
      · rw [hca hkr]
    · simp only [CellMarkerDB.dedupRun, if_neg hk]
      by_cases hkr : CellMarkerDB.key r = k
      · subst hkr
        simp only [List.filter_cons, decide_True, if_pos rfl]
        rw [ih (CellMarkerDB.key r :: seen)]
        simp [hk, List.mem_cons]
      · simp only [List.filter_cons, hkr, decide_False, Bool.false_eq_true,
          if_false]
        rw [ih (CellMarkerDB.key r :: seen)]
        have hrk : ¬(k = CellMarkerDB.key r) := fun h => hkr h.symm
        simp [List.mem_cons, hrk]

/-- The keys of the rows `dedupRun` emits are pairwise distinct and disjoint
from the already-seen keys. -/
theorem dedupRun_nodup :
    ∀ (cs : List CellMarkerDB.MarkerRow) (seen : List (String × String)),
      (((CellMarkerDB.dedupRun seen cs).2.map CellMarkerDB.key).Nodup ∧
        ∀ r ∈ (CellMarkerDB.dedupRun seen cs).2,
          CellMarkerDB.key r ∉ seen) := by
  intro cs
  induction cs with
  | nil => intro seen; simp [CellMarkerDB.dedupRun]
  | cons r rs ih =>
    intro seen
    by_cases hk : CellMarkerDB.key r ∈ seen
    · simpa [CellMarkerDB.dedupRun, hk] using ih seen
    · obtain ⟨ihn, ihm⟩ := ih (CellMarkerDB.key r :: seen)
      refine ⟨?_, ?_⟩
      · simp only [CellMarkerDB.dedupRun, if_neg hk, List.map_cons,
          List.nodup_cons]
        refine ⟨?_, ihn⟩
        intro hmem
        obtain ⟨r', hr', hkey⟩ := List.mem_map.mp hmem
        exact (ihm r' hr') (hkey ▸ List.mem_cons_self _ _)
      · intro r' hr'
        simp only [CellMarkerDB.dedupRun, if_neg hk, List.mem_cons] at hr'
        rcases hr' with rfl | hmem
        · exact hk
        · exact fun hs => (ihm r' hmem) (List.mem_cons_of_mem _ hs)

/-- **C7.** In the CellMarker (FormatB) build on well-formed lines, the output
rows carrying any given `(cell type, entrez id)` key are exactly the first
candidate row with that key in input order: one record per duplicated key,
the first occurrence wins, later duplicates are silently dropped. -/
theorem cellmarker_first_occurrence_wins (lines : List String)
    (out : List CellMarkerDB.MarkerRow) (k : String × String)
    (hwf : ∀ l ∈ lines, CellMarkerDB.lineOk l)
    (h : CellMarkerDB.buildRows lines = .ok out) :
    out.filter (fun r => decide (CellMarkerDB.key r = k)) =
      ((CellMarkerDB.candsOf lines).filter
        (fun r => decide (CellMarkerDB.key r = k))).take 1 := by
  unfold CellMarkerDB.buildRows at h
  rw [lineLoop_eq lines hwf [] []] at h
  dsimp only at h
  simp only [Except.ok.injEq, List.nil_append] at h
  subst h
  rw [dedupRun_filter]
  simp

/-- Witness for C7: the two lines of `cmLinePair` both produce the key
`("CellA", "77")`; only the first line's row `cmRowG1` is emitted. -/
theorem cellmarker_first_occurrence_wins_witness :
    ([cmRowG1] : List CellMarkerDB.MarkerRow).filter
        (fun r => decide (CellMarkerDB.key r = ("CellA", "77"))) =
      ((CellMarkerDB.candsOf cmLinePair).filter
        (fun r => decide (CellMarkerDB.key r = ("CellA", "77")))).take 1 :=
  cellmarker_first_occurrence_wins cmLinePair [cmRowG1] ("CellA", "77")
    (by decide) (by rfl)

/-- **C2 (amended).** Uniqueness on `(cell type, entrez id)` is enforced only
by the FormatB (CellMarker) build: its output keys are pairwise distinct.
(The FormatA build deduplicates nothing — see the counterexample.) -/
theorem cellmarker_key_uniqueness (lines : List String)
    (out : List CellMarkerDB.MarkerRow)
    (hwf : ∀ l ∈ lines, CellMarkerDB.lineOk l)
    (h : CellMarkerDB.buildRows lines = .ok out) :
    (out.map CellMarkerDB.key).Nodup := by
  unfold CellMarkerDB.buildRows at h
  rw [lineLoop_eq lines hwf [] []] at h
  dsimp only at h
  simp only [Except.ok.injEq, List.nil_append] at h
  subst h
  exact (dedupRun_nodup _ []).1

/-- Witness for C2 (amended): the line `cmLineRepeat` offers the same key
`("CellB", "55")` twice; the build emits it once, so the key list of the
output has no duplicate. -/
theorem cellmarker_key_uniqueness_witness :
    (([⟨"Human", "G1", "CellB", "note", "?", "55"⟩] :
        List CellMarkerDB.MarkerRow).map CellMarkerDB.key).Nodup :=
  cellmarker_key_uniqueness [cmLineRepeat]
    [⟨"Human", "G1", "CellB", "note", "?", "55"⟩] (by decide) (by rfl)
